import Mathlib

/-!
Verification of the fMRI preprocessing script (lib/preproc.py) against its
natural-language specification.  The script instantiates a workflow engine:
it declares twelve named nodes, wires them with eighteen connect calls (two
of which attach the pickfirst selector), discovers subjects on disk, and
dispatches on the first command-line argument.  The definitions below are a
shallow embedding of that script: node and edge data are transcribed from
the source, the two utility selectors are translated as Lean functions with
explicit error results, filesystem reads are passed as an explicit
environment, and the command-line dispatch is a pure function of argv.
-/

namespace FmriRepro

/-- A selector function attached to an edge.  The script attaches only
pickfirst (on the two roi_file edges). -/
inductive Sel where
  | pickfirst
deriving DecidableEq, Repr

/-- One connect call: (srcNode, srcPort) to (dstNode, dstPort), with an
optional selector applied to the source value before delivery. -/
structure Edge where
  srcNode : String
  srcPort : String
  sel : Option Sel
  dstNode : String
  dstPort : String
deriving DecidableEq, Repr

/-- A node declaration: its nipype name and whether it is a MapNode
(mapped over a list-valued iterfield). -/
structure NodeDef where
  name : String
  mapped : Bool
deriving DecidableEq, Repr

/-- The twelve nodes of the workflow, in declaration order, with the names
given to pe.Node / pe.MapNode in the source (note motion_correct is named
realign and extract_ref is named extractref). -/
def preprocNodeDefs : List NodeDef :=
  [ ⟨"infosource", false⟩
  , ⟨"datasource", false⟩
  , ⟨"img2float", true⟩
  , ⟨"extractref", true⟩
  , ⟨"realign", true⟩
  , ⟨"skull_strip", false⟩
  , ⟨"coregister", false⟩
  , ⟨"normalize_affine", false⟩
  , ⟨"normalize_warp", false⟩
  , ⟨"apply_warp", true⟩
  , ⟨"smooth", true⟩
  , ⟨"datasink", false⟩ ]

def preprocNodes : List String := preprocNodeDefs.map NodeDef.name

/-- The eighteen preproc.connect calls of the script, in source order. -/
def preprocEdges : List Edge :=
  [ ⟨"infosource", "subject_id", none, "datasource", "subject_id"⟩
  , ⟨"datasource", "bold", none, "img2float", "in_file"⟩
  , ⟨"img2float", "out_file", none, "extractref", "in_file"⟩
  , ⟨"img2float", "out_file", none, "realign", "in_file"⟩
  , ⟨"extractref", "roi_file", some .pickfirst, "realign", "ref_file"⟩
  , ⟨"datasource", "anat", none, "skull_strip", "in_file"⟩
  , ⟨"extractref", "roi_file", some .pickfirst, "coregister", "reference"⟩
  , ⟨"skull_strip", "out_file", none, "coregister", "in_file"⟩
  , ⟨"coregister", "out_file", none, "normalize_affine", "in_file"⟩
  , ⟨"coregister", "out_file", none, "normalize_warp", "in_file"⟩
  , ⟨"normalize_affine", "out_matrix_file", none, "normalize_warp", "affine_file"⟩
  , ⟨"realign", "out_file", none, "apply_warp", "in_file"⟩
  , ⟨"normalize_affine", "out_matrix_file", none, "apply_warp", "premat"⟩
  , ⟨"normalize_warp", "field_file", none, "apply_warp", "field_file"⟩
  , ⟨"apply_warp", "out_file", none, "smooth", "in_file"⟩
  , ⟨"infosource", "subject_id", none, "datasink", "container"⟩
  , ⟨"smooth", "out_file", none, "datasink", "smooth_func"⟩
  , ⟨"normalize_warp", "warped_file", none, "datasink", "norm_anat"⟩ ]

/-- Build-time graph errors from the specification. -/
inductive ConnectErr where
  | duplicateInput : String → String → ConnectErr
deriving DecidableEq, Repr

inductive FreezeErr where
  | cycleDetected : String → FreezeErr
deriving DecidableEq, Repr

/-- Modelled from the spec: connect fails with DuplicateInputError if the
destination port already has a (non-aggregating) edge.  The engine that
enforces this is the external workflow library, specified in section 4.1;
the edge list itself is transcribed from the source. -/
def addEdge (g : List Edge) (e : Edge) : Except ConnectErr (List Edge) :=
  if g.any fun e2 => e2.dstNode = e.dstNode && e2.dstPort = e.dstPort then
    .error (.duplicateInput e.dstNode e.dstPort)
  else
    .ok (g ++ [e])

/-- Modelled from the spec: performing the connect calls in order,
accumulating edges, failing at the first duplicate destination port. -/
def buildGraph (es : List Edge) : Except ConnectErr (List Edge) :=
  es.foldlM addEdge []

/-- True when node n has no incoming edge from a node still in remaining. -/
def noIncomingFrom (edges : List Edge) (remaining : List String) (n : String) : Bool :=
  edges.all fun e => !(e.dstNode = n && remaining.contains e.srcNode)

/-- Modelled from the spec: Kahn-style acyclicity validation used by
freeze, peeling off ready nodes and reporting CycleDetectedError with a
participating node when no node is ready. -/
def topoAux (edges : List Edge) : Nat → List String → Except FreezeErr (List String)
  | _, [] => .ok []
  | 0, remaining => .error (.cycleDetected (remaining.headD ""))
  | fuel + 1, remaining =>
    match remaining.filter (noIncomingFrom edges remaining) with
    | [] => .error (.cycleDetected (remaining.headD ""))
    | ready =>
      match topoAux edges fuel (remaining.filter fun n => !(ready.contains n)) with
      | .ok rest => .ok (ready ++ rest)
      | .error err => .error err

/-- Modelled from the spec: freeze validates acyclicity of the graph,
returning a topological order on success and CycleDetectedError on a
cycle. -/
def freeze (nodes : List String) (edges : List Edge) : Except FreezeErr (List String) :=
  topoAux edges nodes.length nodes

/-- Position of a node in the declaration order, used as an explicit
topological ranking of the concrete graph. -/
def nodeRank (n : String) : Nat := preprocNodes.indexOf n

/-- A Python value as the selectors see it: a string, an integer, or a
list.  The isinstance test in pickfirst distinguishes exactly the list
constructor. -/
inductive PyVal where
  | str : String → PyVal
  | int : Int → PyVal
  | list : List PyVal → PyVal

/-- Python exceptions the selectors can raise. -/
inductive PyErr where
  | indexError
  | exception : String → PyErr
deriving DecidableEq, Repr

instance {ε α : Type} [DecidableEq ε] [DecidableEq α] :
    DecidableEq (Except ε α) := fun a b =>
  match a, b with
  | .ok x, .ok y =>
    if h : x = y then .isTrue (by rw [h]) else .isFalse (fun hc => by cases hc; exact h rfl)
  | .error x, .error y =>
    if h : x = y then .isTrue (by rw [h]) else .isFalse (fun hc => by cases hc; exact h rfl)
  | .ok _, .error _ => .isFalse (fun hc => Except.noConfusion hc)
  | .error _, .ok _ => .isFalse (fun hc => Except.noConfusion hc)

/-- Python str.lower restricted to the byte range the script actually
uses: each ASCII uppercase letter is mapped to its lowercase form.
Defined by structural recursion over the character list so that it
evaluates inside the kernel. -/
def pyLower (s : String) : String := ⟨s.data.map Char.toLower⟩

/-- Translation of the utility function pickfirst: if the argument is a
list, return its element 0 (raising IndexError on an empty list, as
Python indexing does); otherwise return the argument unchanged. -/
def pickfirst (files : PyVal) : Except PyErr PyVal :=
  match files with
  | .list [] => .error .indexError
  | .list (v :: _) => .ok v
  | v => .ok v

/-- Python list indexing with a possibly negative index: nonnegative
indices count from the front, negative ones from the back, and an index
out of range raises IndexError (modelled as none). -/
def pyGet {α : Type} (xs : List α) (i : Int) : Option α :=
  if 0 ≤ i then xs.get? i.toNat
  else if (-i).toNat ≤ xs.length then xs.get? (xs.length - (-i).toNat)
  else none

/-- The filesystem state pickvol reads through nibabel load: for each
image path, the fourth entry of its shape (the number of volumes). -/
structure FsEnv where
  dim3 : String → Nat

/-- Translation of the utility function pickvol: lowercase the policy
string; for first the index is 0; for middle it loads the image at
filenames[fileidx] and takes half its fourth shape entry (the script is
Python 2 era, so shape[3]/2 is integer division and the ceil of that
integer is itself); any other policy string raises an Exception whose
message names it.  The nibabel load is the explicit environment. -/
def pickvol (env : FsEnv) (filenames : List String) (fileidx : Int)
    (which : String) : Except PyErr Nat :=
  if pyLower which = "first" then .ok 0
  else if pyLower which = "middle" then
    match pyGet filenames fileidx with
    | some fn => .ok (env.dim3 fn / 2)
    | none => .error .indexError
  else .error (.exception ("unknown value for volume selection : " ++ which))

/-- A constant filesystem in which every image has four volumes. -/
def envFour : FsEnv := ⟨fun _ => 4⟩

/-- A constant filesystem in which every image has eight volumes. -/
def envEight : FsEnv := ⟨fun _ => 8⟩

/-- Python str.split on a single separator character, on the character
list of the string: an empty string yields one empty field, and each
separator occurrence starts a new field. -/
def splitOnChar (sep : Char) : List Char → List (List Char)
  | [] => [[]]
  | c :: cs =>
    match splitOnChar sep cs with
    | [] => if c = sep then [[], [c]] else [[c]]
    | r :: rs => if c = sep then [] :: r :: rs else (c :: r) :: rs

/-- Translation of path.split(os.path.sep)[-1]: the last slash-separated
component of a path. -/
def lastComponent (path : String) : String :=
  ⟨(splitOnChar (Char.ofNat 47) path.data).getLastD []⟩

/-- Byte-wise lexicographic less-or-equal on character lists, the order
Python 2 uses to sort the ASCII subject paths. -/
def charListLe : List Char → List Char → Bool
  | [], _ => true
  | _ :: _, [] => false
  | c :: cs, d :: ds =>
    if c.toNat < d.toNat then true
    else if d.toNat < c.toNat then false
    else charListLe cs ds

/-- The string order used by sorted() on the subject paths. -/
def strLe (a b : String) : Prop := charListLe a.data b.data = true

instance : DecidableRel strLe :=
  fun a b => inferInstanceAs (Decidable (charListLe a.data b.data = true))

instance : IsTotal String strLe := by
  constructor
  have h : ∀ x y : List Char, charListLe x y = true ∨ charListLe y x = true := by
    intro x
    induction x with
    | nil => intro y; left; rfl
    | cons c cs ih =>
      intro y
      cases y with
      | nil => right; rfl
      | cons d ds =>
        by_cases h1 : c.toNat < d.toNat
        · left; simp [charListLe, h1]
        · by_cases h2 : d.toNat < c.toNat
          · right; simp [charListLe, h2]
          · rcases ih ds with h3 | h3
            · left; simp [charListLe, h1, h2, h3]
            · right; simp [charListLe, h1, h2, h3]
  intro a b
  exact h a.data b.data

instance : IsTrans String strLe := by
  constructor
  have h : ∀ x y z : List Char, charListLe x y = true → charListLe y z = true →
      charListLe x z = true := by
    intro x
    induction x with
    | nil => intro y z h1 h2; rfl
    | cons c cs ih =>
      intro y z h1 h2
      cases y with
      | nil => simp [charListLe] at h1
      | cons d ds =>
        cases z with
        | nil => simp [charListLe] at h2
        | cons e es =>
          simp only [charListLe] at h1 h2 ⊢
          by_cases hcd : c.toNat < d.toNat
          · by_cases hde : d.toNat < e.toNat
            · have hce : c.toNat < e.toNat := Nat.lt_trans hcd hde
              simp [hce]
            · by_cases hed : e.toNat < d.toNat
              · simp [hde, hed] at h2
              · have hce : c.toNat < e.toNat := by omega
                simp [hce]
          · by_cases hdc : d.toNat < c.toNat
            · simp [hcd, hdc] at h1
            · simp [hcd, hdc] at h1
              by_cases hde : d.toNat < e.toNat
              · have hce : c.toNat < e.toNat := by omega
                simp [hce]
              · by_cases hed : e.toNat < d.toNat
                · simp [hde, hed] at h2
                · simp [hde, hed] at h2
                  have hce : ¬ c.toNat < e.toNat := by omega
                  have hec : ¬ e.toNat < c.toNat := by omega
                  simp [hce, hec]
                  exact ih ds es h1 h2
  intro a b c
  exact h a.data b.data c.data

/-- Translation of sorted() applied to the globbed subject directories. -/
def pySorted (xs : List String) : List String := List.insertionSort strLe xs

/-- Translation of the subjects computation of the script: sort the
directories matching sub* under the data directory, take the last path
component of each, then truncate the list to its first element (the
subjects[:1] slice on line 26). -/
def subjectsOf (subjdirs : List String) : List String :=
  ((pySorted subjdirs).map lastComponent).take 1

/-- The iterables attached to the infosource node: a single subject_id
axis carrying the subjects list. -/
def infosourceIterables (subjdirs : List String) : List (String × List String) :=
  [("subject_id", subjectsOf subjdirs)]

/-- What the script does for a given first command-line argument. -/
inductive CliAction where
  | plot
  | runPipeline
  | noop
deriving DecidableEq, Repr

/-- Translation of the dispatch at the bottom of the script: with more
than one argv entry, argv[1] equal to plot selects the schemata writer,
argv[1] equal to run selects pipeline execution, and anything else (or a
bare invocation) does nothing. -/
def dispatch (argv : List String) : CliAction :=
  match argv.get? 1 with
  | some arg => if arg = "plot" then .plot else if arg = "run" then .runPipeline else .noop
  | none => .noop

/-- Failure of the external pipeline run: some execution instance ended
FAILED, named by its node. -/
inductive RunErr where
  | nodeFailed : String → RunErr
deriving DecidableEq, Repr

/-- Process exit status of run_preproc: preproc.run() either returns,
after which the report directory is removed and the interpreter exits
with status 0, or raises, and the uncaught exception terminates the
interpreter with status 1. -/
def runExit (outcome : Except RunErr Unit) : Nat :=
  match outcome with
  | .ok _ => 0
  | .error _ => 1

/-- The observable outcome of one invocation of the script. -/
structure ScriptResult where
  graph : List Edge
  action : CliAction
  exitCode : Nat
deriving DecidableEq, Repr

/-- One invocation of the script: module-level code always constructs
the workflow graph (the eighteen connect calls run at import), then the
dispatch selects an action; only the run action invokes the pipeline,
whose external outcome determines the exit status. -/
def scriptMain (argv : List String) (runOutcome : Except RunErr Unit) : ScriptResult :=
  { graph := preprocEdges
  , action := dispatch argv
  , exitCode :=
      match dispatch argv with
      | .runPipeline => runExit runOutcome
      | _ => 0 }

/-- Two subject directories as glob would return them under the data
directory of the script. -/
def subjDirsEx : List String :=
  ["/home/brain/bart/data/sub01", "/home/brain/bart/data/sub02"]

end FmriRepro

namespace FmriRepro

/-- C1: the directed edge relation induced by the eighteen connect calls
admits a topological order (the declaration order ranks every edge source
strictly below its destination), and freezing the graph succeeds rather
than failing with CycleDetectedError. -/
theorem preproc_graph_acyclic :
    (∃ rank : String → Nat,
      preprocEdges.all (fun e => rank e.srcNode < rank e.dstNode) = true)
    ∧ (freeze preprocNodes preprocEdges).isOk = true := by
  refine ⟨⟨nodeRank, ?_⟩, ?_⟩ <;> decide

/-- C2: no two of the eighteen connect calls name the same destination
node and destination port, so every input port has at most one producing
edge and replaying the connect calls never fails with
DuplicateInputError. -/
theorem preproc_no_duplicate_inputs :
    (preprocEdges.map fun e => (e.dstNode, e.dstPort)).Nodup
    ∧ buildGraph preprocEdges = Except.ok preprocEdges := by
  exact ⟨by decide, by rfl⟩

/-- C3: pickfirst applied to a non-empty list returns its element 0, and
applied to a value that is not a list (a string or an integer) returns
that value unchanged. -/
theorem pickfirst_spec :
    (∀ (v : PyVal) (vs : List PyVal), pickfirst (PyVal.list (v :: vs)) = Except.ok v)
    ∧ (∀ s : String, pickfirst (PyVal.str s) = Except.ok (PyVal.str s))
    ∧ (∀ n : Int, pickfirst (PyVal.int n) = Except.ok (PyVal.int n)) :=
  ⟨fun _ _ => rfl, fun _ => rfl, fun _ => rfl⟩

/-- C4: for every policy string whose lowercase form is neither first nor
middle, pickvol raises an Exception whose message names the unsupported
policy keyword, and returns no index. -/
theorem pickvol_unknown_policy (env : FsEnv) (filenames : List String)
    (fileidx : Int) (which : String)
    (h1 : pyLower which ≠ "first") (h2 : pyLower which ≠ "middle") :
    pickvol env filenames fileidx which
      = Except.error (PyErr.exception ("unknown value for volume selection : " ++ which))
    ∧ ∀ k : Nat, pickvol env filenames fileidx which ≠ Except.ok k := by
  unfold pickvol
  rw [if_neg h1, if_neg h2]
  exact ⟨rfl, fun k h => Except.noConfusion h⟩

/-- Witness for C4 at the concrete policy string last. -/
theorem pickvol_unknown_policy_witness :
    pyLower "last" ≠ "first" ∧ pyLower "last" ≠ "middle"
    ∧ (pickvol envFour [] 0 "last"
        = Except.error (PyErr.exception ("unknown value for volume selection : " ++ "last"))
      ∧ ∀ k : Nat, pickvol envFour [] 0 "last" ≠ Except.ok k) :=
  ⟨by decide, by decide,
    pickvol_unknown_policy envFour [] 0 "last" (by decide) (by decide)⟩

/-- C5 counterexample: there is no INDEX(n) policy variant in the code;
an INDEX-style policy tag is rejected with the unknown-policy Exception
instead of resolving to a concrete volume index. -/
theorem pickvol_no_index_variant :
    pickvol envFour ["f"] 0 "index(0)"
      = Except.error (PyErr.exception "unknown value for volume selection : index(0)")
    ∧ ∀ k : Nat, pickvol envFour ["f"] 0 "index(0)" ≠ Except.ok k :=
  ⟨by decide, fun _ h => Except.noConfusion h⟩

/-- C5 amended: pickvol resolves the two policy variants it supports to a
concrete volume index: a policy whose lowercase form is first resolves to
index 0 for every input, and one whose lowercase form is middle resolves
to half the volume count of the image at filenames[fileidx] when that
index is in range. -/
theorem pickvol_policy_resolution (env : FsEnv) (filenames : List String)
    (fileidx : Int) (which : String) :
    (pyLower which = "first" → pickvol env filenames fileidx which = Except.ok 0)
    ∧ (pyLower which = "middle" → ∀ fn, pyGet filenames fileidx = some fn →
        pickvol env filenames fileidx which = Except.ok (env.dim3 fn / 2)) := by
  constructor
  · intro h
    simp [pickvol, h]
  · intro h fn hfn
    simp [pickvol, h, hfn]

/-- Witness for C5 at the concrete policies FIRST and Middle. -/
theorem pickvol_policy_resolution_witness :
    (pyLower "FIRST" = "first" ∧ pickvol envFour ["f"] 0 "FIRST" = Except.ok 0)
    ∧ (pyLower "Middle" = "middle" ∧ pyGet ["f"] (0 : Int) = some "f"
        ∧ pickvol envFour ["f"] 0 "Middle" = Except.ok 2) :=
  ⟨⟨by decide, (pickvol_policy_resolution envFour ["f"] 0 "FIRST").1 (by decide)⟩,
   ⟨by decide, by decide,
    (pickvol_policy_resolution envFour ["f"] 0 "Middle").2 (by decide) "f" (by decide)⟩⟩

/-- C6 counterexample: pickvol is not independent of state beyond its
arguments: under the middle policy it reads the image file named by its
arguments, so two invocations with equal arguments but different
filesystem contents return different indices. -/
theorem pickvol_reads_filesystem :
    pickvol envFour ["f"] 0 "middle" ≠ pickvol envEight ["f"] 0 "middle" := by
  decide

/-- C6 amended: pickfirst is a pure function of its argument, and pickvol
is deterministic once the filesystem state is fixed; moreover pickvol
reads no filesystem state at all except under the middle policy, so for
any other policy two invocations with equal arguments agree even across
different filesystem states. -/
theorem selectors_deterministic (a b : PyVal) (env env2 : FsEnv)
    (filenames : List String) (fileidx : Int) (which : String)
    (hab : a = b) (hmid : pyLower which ≠ "middle") :
    pickfirst a = pickfirst b
    ∧ pickvol env filenames fileidx which = pickvol env2 filenames fileidx which := by
  subst hab
  refine ⟨rfl, ?_⟩
  by_cases hf : pyLower which = "first"
  · simp [pickvol, hf]
  · simp [pickvol, hf, hmid]

/-- Witness for C6 at a concrete argument and the first policy. -/
theorem selectors_deterministic_witness :
    PyVal.int 3 = PyVal.int 3 ∧ pyLower "first" ≠ "middle"
    ∧ (pickfirst (PyVal.int 3) = pickfirst (PyVal.int 3)
       ∧ pickvol envFour ["f"] 0 "first" = pickvol envEight ["f"] 0 "first") :=
  ⟨rfl, by decide,
    selectors_deterministic (PyVal.int 3) (PyVal.int 3) envFour envEight
      ["f"] 0 "first" rfl (by decide)⟩

/-- C9: pickfirst applied to the empty list raises IndexError and
delivers no value, so an empty list arriving on a pick-first edge fails
that edge rather than propagating downstream. -/
theorem pickfirst_empty_list_raises :
    pickfirst (PyVal.list []) = Except.error PyErr.indexError
    ∧ ∀ v : PyVal, pickfirst (PyVal.list []) ≠ Except.ok v :=
  ⟨rfl, fun _ h => Except.noConfusion h⟩

/-- C7 counterexample: with two discovered subject directories the
subject_id axis carries a single value, not one value per directory: the
subjects list is truncated to its first element before it is attached to
infosource. -/
theorem subjects_one_per_directory_fails :
    subjectsOf subjDirsEx = ["sub01"]
    ∧ (subjectsOf subjDirsEx).length ≠ subjDirsEx.length := by
  constructor <;> decide

/-- C7 amended: the subject_id axis attached to infosource carries
exactly one value whenever any sub* directory is discovered: the last
path component of the least directory path in sort order; the graph
therefore iterates once in total, not once per discovered subject. -/
theorem subjects_axis_truncated (subjdirs : List String) (h : subjdirs ≠ []) :
    (subjectsOf subjdirs).length = 1
    ∧ (∃ d ∈ subjdirs, subjectsOf subjdirs = [lastComponent d]
        ∧ ∀ d2 ∈ subjdirs, strLe d d2)
    ∧ infosourceIterables subjdirs = [("subject_id", subjectsOf subjdirs)] := by
  cases hps : pySorted subjdirs with
  | nil =>
    exfalso
    have hlen : (pySorted subjdirs).length = subjdirs.length :=
      List.length_insertionSort strLe subjdirs
    rw [hps] at hlen
    exact h (List.length_eq_zero.mp hlen.symm)
  | cons m rest =>
    have hm_mem : m ∈ pySorted subjdirs := by
      rw [hps]; exact List.mem_cons_self m rest
    have hm_in : m ∈ subjdirs := (List.mem_insertionSort strLe).mp hm_mem
    have hsorted : List.Sorted strLe (pySorted subjdirs) :=
      List.sorted_insertionSort strLe subjdirs
    rw [hps] at hsorted
    have hmin : ∀ d2 ∈ subjdirs, strLe m d2 := by
      intro d2 hd2
      have hd2s : d2 ∈ pySorted subjdirs := (List.mem_insertionSort strLe).mpr hd2
      rw [hps] at hd2s
      rcases List.mem_cons.mp hd2s with heq | htl
      · rw [heq]
        exact (IsTotal.total (r := strLe) m m).elim id id
      · exact List.rel_of_sorted_cons hsorted d2 htl
    have hsub : subjectsOf subjdirs = [lastComponent m] := by
      unfold subjectsOf
      rw [hps]
      simp
    exact ⟨by rw [hsub]; rfl, ⟨m, hm_in, hsub, hmin⟩, rfl⟩

/-- Witness for C7 at the two concrete subject directories. -/
theorem subjects_axis_truncated_witness :
    subjDirsEx ≠ []
    ∧ ((subjectsOf subjDirsEx).length = 1
      ∧ (∃ d ∈ subjDirsEx, subjectsOf subjDirsEx = [lastComponent d]
          ∧ ∀ d2 ∈ subjDirsEx, strLe d d2)
      ∧ infosourceIterables subjDirsEx = [("subject_id", subjectsOf subjDirsEx)]) :=
  ⟨by decide, subjects_axis_truncated subjDirsEx (by decide)⟩

/-- C8 counterexample: invoking the script with first argument build or
plan selects no action at all; the dispatch treats both exactly like an
arbitrary unrecognized argument, so the script has no build operation
and no plan operation. -/
theorem no_build_or_plan_operation :
    (scriptMain ["preproc.py", "build"] (Except.ok ())).action = CliAction.noop
    ∧ (scriptMain ["preproc.py", "plan"] (Except.ok ())).action = CliAction.noop
    ∧ dispatch ["preproc.py", "plan"] = dispatch ["preproc.py", "arbitrary"] := by
  refine ⟨by decide, by decide, by decide⟩

/-- C8 amended: the command-line surface provides exactly two
operations: plot, which writes the graph schemata, and run, which
executes the pipeline; when the pipeline run fails the uncaught
exception makes the process exit status non-zero, and a successful run
exits with status 0. -/
theorem cli_plot_run_and_exit_status (argv : List String) (e : RunErr)
    (hrun : argv[1]? = some "run") :
    dispatch ["preproc.py", "plot"] = CliAction.plot
    ∧ dispatch argv = CliAction.runPipeline
    ∧ (scriptMain argv (Except.error e)).exitCode ≠ 0
    ∧ (scriptMain argv (Except.ok ())).exitCode = 0 := by
  refine ⟨by decide, ?_, ?_, ?_⟩
  · simp [dispatch, hrun]
  · simp [scriptMain, dispatch, hrun, runExit]
  · simp [scriptMain, dispatch, hrun, runExit]

/-- Witness for C8 at a concrete run invocation with a failed node. -/
theorem cli_plot_run_and_exit_status_witness :
    (["preproc.py", "run"] : List String)[1]? = some "run"
    ∧ (dispatch ["preproc.py", "plot"] = CliAction.plot
      ∧ dispatch ["preproc.py", "run"] = CliAction.runPipeline
      ∧ (scriptMain ["preproc.py", "run"]
          (Except.error (RunErr.nodeFailed "realign"))).exitCode ≠ 0
      ∧ (scriptMain ["preproc.py", "run"] (Except.ok ())).exitCode = 0) :=
  ⟨by decide,
    cli_plot_run_and_exit_status ["preproc.py", "run"]
      (RunErr.nodeFailed "realign") (by decide)⟩

/-- C10: invoked with no command-line argument, or with a first
argument other than plot and run, the script still constructs the
workflow graph at module level but selects no action and exits with
status 0. -/
theorem unknown_argument_is_noop (argv : List String) (outcome : Except RunErr Unit)
    (h : argv[1]? = none ∨ ∃ a, argv[1]? = some a ∧ a ≠ "plot" ∧ a ≠ "run") :
    scriptMain argv outcome
      = { graph := preprocEdges, action := CliAction.noop, exitCode := 0 } := by
  rcases h with h | ⟨a, ha, hp, hr⟩
  · simp [scriptMain, dispatch, h]
  · simp [scriptMain, dispatch, ha, hp, hr]

/-- Witness for C10 at a bare invocation and at an unrecognized
argument. -/
theorem unknown_argument_is_noop_witness :
    ((["preproc.py"] : List String)[1]? = none
      ∨ ∃ a, (["preproc.py"] : List String)[1]? = some a ∧ a ≠ "plot" ∧ a ≠ "run")
    ∧ scriptMain ["preproc.py"] (Except.ok ())
        = { graph := preprocEdges, action := CliAction.noop, exitCode := 0 }
    ∧ scriptMain ["preproc.py", "status"] (Except.ok ())
        = { graph := preprocEdges, action := CliAction.noop, exitCode := 0 } :=
  ⟨Or.inl rfl,
    unknown_argument_is_noop ["preproc.py"] (Except.ok ()) (Or.inl rfl),
    unknown_argument_is_noop ["preproc.py", "status"] (Except.ok ())
      (Or.inr ⟨"status", rfl, by decide, by decide⟩)⟩

end FmriRepro
